import Mathlib

/-!
Verification of the shipment registration and response-normalization pipeline
of the tsorders API (src/app/services.py, src/app/routes.py, src/app/utils.py).

The Python code is shallowly embedded: dictionaries become structures,
`xml.etree.ElementTree` documents become an inductive tree type, the
`find('.//tag')` / `findall('.//a/b')` operations become preorder searches,
exceptions become `Except`, and database / network side effects become an
explicit list of effects returned alongside the response.  Python `None`
values inside response dictionaries are modelled with `Option`.
-/

set_option maxRecDepth 20000
set_option maxHeartbeats 1000000

/-! XML elements: tag (namespace-expanded, as ElementTree does with a
namespace map), attributes, optional text, children.  The child list is a
mutually defined forest so that the document-order traversals below are
structurally recursive and kernel-reducible. -/

mutual
/-- An XML element. -/
inductive Xml where
  | el (tag : String) (attrs : List (String × String)) (text : Option String)
      (children : XmlForest)
/-- A list of sibling XML elements. -/
inductive XmlForest where
  | nil
  | cons (head : Xml) (tail : XmlForest)
end

def Xml.tag : Xml → String
  | .el t _ _ _ => t

def Xml.attrs : Xml → List (String × String)
  | .el _ a _ _ => a

def Xml.text : Xml → Option String
  | .el _ _ x _ => x

def Xml.children : Xml → XmlForest
  | .el _ _ _ c => c

/-- Forest from a plain list (used to write document fixtures). -/
def XmlForest.ofList : List Xml → XmlForest
  | [] => .nil
  | x :: xs => .cons x (XmlForest.ofList xs)

/-- Forest back to a plain list. -/
def XmlForest.toList : XmlForest → List Xml
  | .nil => []
  | .cons x xs => x :: xs.toList

/-- `elem.get(key, default)` on an ElementTree element. -/
def Xml.get (n : Xml) (key dflt : String) : String :=
  match n.attrs.lookup key with
  | some v => v
  | none => dflt

mutual
/-- The node followed by all its descendants, in document (preorder)
order. -/
def Xml.preorder : Xml → List Xml
  | .el t a x cs => .el t a x cs :: cs.preorder
/-- All nodes of the forest and their descendants, in document order. -/
def XmlForest.preorder : XmlForest → List Xml
  | .nil => []
  | .cons x xs => x.preorder ++ xs.preorder
end

/-- All proper descendants of `n`, in document order (the node set that
ElementTree’s `'.//'` paths range over). -/
def Xml.descendants (n : Xml) : List Xml :=
  n.children.preorder

/-- `node.find('.//t')`: first descendant of `n` with tag `t`, in document
order. -/
def Xml.findDesc (n : Xml) (t : String) : Option Xml :=
  (n.descendants.filter (fun c => c.tag = t)).head?

/-- `node.findall('.//t1/t2')`: the `t2`-children of every `t1` descendant,
in document order. -/
def Xml.findAllDescChild (n : Xml) (t1 t2 : String) : List Xml :=
  ((n.descendants.filter (fun c => c.tag = t1)).map
    (fun a => a.children.toList.filter (fun c => c.tag = t2))).flatten

/-- `node.find('.//t1/t2')`: first of the above. -/
def Xml.findDescChild (n : Xml) (t1 t2 : String) : Option Xml :=
  (n.findAllDescChild t1 t2).head?

/-! ## GLS outcome model (services.py, GLSService) -/

/-- One entry of the `refs` list of a success outcome:
`{"type": ref.get('tipo', ''), "value": ref.text or ''}`. -/
structure GlsRef where
  rtype : String
  rvalue : String
deriving DecidableEq, Repr

/-- The dictionary returned by `_parse_gls_response` / `_build_error_response`.
`codResponseWS` and `idOrder` are always present strings.  `responseWS` and
`messageWS` are present strings in every branch but may be Python `None`
(modelled as the inner value of `Option`... here directly as `Option String`
where `none` models Python `None`).  The five carrier fields exist only in
the success branch, so an absent key is the outer `none`; `labelBase64`'s
value may itself be Python `None` (inner `Option`). -/
structure GlsOutcome where
  codResponseWS : String
  responseWS : Option String
  messageWS : Option String
  idOrder : String
  uidExp : Option String
  codBar : Option String
  exp : Option String
  refs : Option (List GlsRef)
  labelBase64 : Option (Option String)
deriving DecidableEq, Repr

/-- `GLSService._build_error_response` (services.py lines 279-286). -/
def build_error_response (error : String) (order_id : String) : GlsOutcome :=
  { codResponseWS := "-1"
  , responseWS := some error
  , messageWS := some "Error en solicitud GLS"
  , idOrder := order_id
  , uidExp := none, codBar := none, exp := none, refs := none
  , labelBase64 := none }

/-- The static GLS error table (services.py lines 299-313), in source order. -/
def glsErrors : List (String × String) :=
  [ ("+38", "Error, Número de teléfono del destinatario no válido.")
  , ("36", "Error, Código postal del destinatario, formato incorrecto.")
  , ("-1", "Tiempo de espera expirado.")
  , ("-3", "Error, El código de barras del envío ya existe.")
  , ("-33", "Cp destino no existe o no es de esa plaza")
  , ("-48", "Error, servicio EuroEstandar/EBP: El número de paquetes debe ser siempre 1.")
  , ("-49", "Error, servicio EuroEstandar/EBP: El peso debe ser <= 31,5 kgs.")
  , ("-70", "Error, El número de pedido ya existe")
  , ("-99", "Advertencia, los servicios web están temporalmente fuera de servicio.")
  , ("-128", "Error, Nombre del destinatario debe tener al menos tres caracteres.")
  , ("-129", "Error, la dirección del destinatario debe tener al menos tres caracteres.")
  , ("-130", "Error, La Ciudad del Destinatario debe tener al menos tres caracteres.")
  , ("-131", "Error, Consignee Zipcode debe tener al menos cuatro caracteres.") ]

/-- `GLSService.get_error_message` (services.py lines 288-315):
`errors.get(error_code, "")`. -/
def get_error_message (error_code : String) : String :=
  (glsErrors.lookup error_code).getD ""

/-- Python's `a or b` where `a` is a string and `b` an optional string:
an empty `a` is falsy and yields `b`. -/
def pyOrStr (a : String) (b : Option String) : Option String :=
  if a = "" then b else some a

/-- `error_node.text if error_node is not None else "Error desconocido"`
applied to `envio_node.find('.//Errores/Error')` (services.py 265-266). -/
def extract_error_msg (envio_node : Xml) : Option String :=
  match envio_node.findDescChild "Errores" "Error" with
  | some nd => nd.text
  | none => some "Error desconocido"

/-- Namespace-expanded tag searched for at services.py line 218. -/
def grabaTag : String := "{http://www.asmred.com/}GrabaServiciosResult"

/-- `GLSService._parse_gls_response` (services.py lines 194-277).  The input
is the result of `ET.fromstring(xml_response)`: `Except.error e` models a
raised parse exception with message `e` (caught at line 275), `Except.ok`
the parsed tree. -/
def parse_gls_response (input : Except String Xml) (order_id : String) :
    GlsOutcome :=
  match input with
  | .error e => build_error_response ("Error parseando respuesta: " ++ e) order_id
  | .ok root =>
    match root.findDesc grabaTag with
    | none => build_error_response "Respuesta XML inválida" order_id
    | some result_node =>
      match result_node.findDesc "Envio" with
      | none => build_error_response "Nodo Envio no encontrado" order_id
      | some envio_node =>
        match envio_node.findDesc "Resultado" with
        | none => build_error_response "Nodo Resultado no encontrado" order_id
        | some resultado_node =>
          let return_code := resultado_node.get "return" "-1"
          if return_code = "0" then
            { codResponseWS := return_code
            , responseWS := some ""
            , messageWS := some "Envio insertado Ok"
            , idOrder := order_id
            , uidExp := some (envio_node.get "uid" "")
            , codBar := some (envio_node.get "codbarras" "")
            , exp := some (envio_node.get "codexp" "")
            , refs := some ((envio_node.findAllDescChild "Referencias" "Referencia").map
                (fun r => { rtype := r.get "tipo" "", rvalue := r.text.getD "" }))
            , labelBase64 := some
                (match envio_node.findDescChild "Etiquetas" "Etiqueta" with
                 | some nd => nd.text
                 | none => some "") }
          else
            let error_msg := extract_error_msg envio_node
            { codResponseWS := return_code
            , responseWS := error_msg
            , messageWS := pyOrStr (get_error_message return_code) error_msg
            , idOrder := order_id
            , uidExp := none, codBar := none, exp := none, refs := none
            , labelBase64 := none }

/-! ## Shipment data, carrier client, response helpers -/

/-- The row fetched by `uSp_getOrdersForShipmentWS`, i.e. the `envio`
dictionary consumed by `generate_soap_xml` and `request_shipment_ws`
(fields of schemas.GLSShipmentData; numeric fields kept as their string
rendering in the template). -/
structure Envio where
  idOrder : String
  servicio : String
  horario : String
  bultos : String
  peso : String
  destinatario : String
  direccion : String
  poblacion : String
  pais : String
  cp : String
  telefono : String
  movil : String
  email : String
  departamento : String
  observaciones : String
  refC : String
deriving DecidableEq, Repr

/-- `GLSService.request_shipment_ws` (services.py lines 163-192), with the
network exchange abstracted: the outer `Except` is the transport attempt
(an exception caught at line 190 carries its message), the inner `Except`
is whether the returned body parses as XML.  The `except` clause funnels
every transport failure through `_build_error_response`; a received body is
handed to `_parse_gls_response` with `envio.get("idOrder", "")`. -/
def request_shipment_ws (transport : Except String (Except String Xml))
    (envio : Envio) : GlsOutcome :=
  match transport with
  | .error e => build_error_response e envio.idOrder
  | .ok body => parse_gls_response body envio.idOrder

/-- Generic success envelope of `utils.success_response` (utils.py 16-48):
header `{status, content}` plus optional `resource` / `count`, the payload,
and the message key which Python adds only when the message is truthy. -/
structure ApiResponse (α : Type) where
  status : String
  content : Nat
  resource : Option String
  count : Option Nat
  message : Option String
  payload : α
deriving DecidableEq, Repr

/-- Python `if message:` — `None` and `""` are both falsy and omit the key. -/
def truthyMessage (m : Option String) : Option String :=
  match m with
  | none => none
  | some s => if s = "" then none else some s

/-- `utils.success_response(payload, content, message, resource, count)`. -/
def success_response (payload : α) (content : Nat) (message : Option String)
    (resource : Option String) (count : Option Nat) : ApiResponse α :=
  { status := "ok", content := content, resource := resource, count := count
  , message := truthyMessage message, payload := payload }

/-- `utils.empty_response()` — `success_response([], content=0)`. -/
def empty_response (payload : α) : ApiResponse α :=
  success_response payload 0 none none none

/-- A row of the orders table, as far as the existence / shipped checks
observe it. -/
structure OrderRow where
  orderId : String
  shipped : Bool
deriving DecidableEq, Repr

/-- `utils.check_order_exists` (utils.py 84-105): any exception from the
database call returns `False`; otherwise `bool(result and len(result) > 0)`. -/
def check_order_exists (dbResult : Except String (List OrderRow)) : Bool :=
  match dbResult with
  | .error _ => false
  | .ok rows => !rows.isEmpty

/-- `utils.check_order_not_shipped` (utils.py 108-129): same shape over
`uSp_isOrderNotShipped`. -/
def check_order_not_shipped (dbResult : Except String (List OrderRow)) : Bool :=
  match dbResult with
  | .error _ => false
  | .ok rows => !rows.isEmpty

/-- Modelled from the spec: the stored procedure `uSp_isOrderNotShipped` is
database code absent from the repository.  Per spec §6 it is the boolean
check `isOrderNotShipped(orderId)`; following the row-set convention the
Python wrapper expects (`bool(result and len(result) > 0)`), it is modelled
as returning the order rows with the given id whose shipped flag is unset. -/
def uSp_isOrderNotShipped (db : List OrderRow) (order_id : String) :
    List OrderRow :=
  db.filter (fun r => r.orderId = order_id && !r.shipped)

/-- Modelled from the spec: stored procedure `uSp_isExistOrder` (spec §6
`isOrderExisting`), as the rows with the given order id. -/
def uSp_isExistOrder (db : List OrderRow) (order_id : String) :
    List OrderRow :=
  db.filter (fun r => r.orderId = order_id)

/-! ## The WS registration orchestrator (routes.py `_register_shipment_ws`) -/

/-- Database mutations and the carrier call, traced in program order.
Reads (`fetchall` / `fetchone`) are inputs of the embedded functions, so
only mutating statements, commits and the carrier invocation are traced. -/
inductive Effect where
  | updateOrdersDetailWS (idOrder uIdExp expeditionTraking codBar : String)
  | updateShipmentWS (idOrder : String)
  | updateOrdersWS (idOrder exp : String)
  | updateShipmentFile (fileGenerateName : String)
  | updateOrdersDetailFile
  | callUpdateMark (sp : String) (value : Nat) (idOrder : String)
  | insertSelectedShipment (idOrder : String)
  | commit
  | carrierCall
deriving DecidableEq, Repr

/-- Mutating database statements (commits and the carrier call excluded). -/
def Effect.isMutation : Effect → Bool
  | .commit => false
  | .carrierCall => false
  | _ => true

/-- Payload of the WS-path response: the empty list of the early returns, or
the GLS outcome dictionary. -/
inductive WsPayload where
  | noData
  | outcome (o : GlsOutcome)
deriving DecidableEq, Repr

/-- Result of `_register_shipment_ws`: an `HTTPException` (the 400 for a
missing order id) or a JSON response. -/
inductive WsResult where
  | httpError (status : Nat) (detail : String)
  | ok (r : ApiResponse WsPayload)
deriving DecidableEq, Repr

/-- `routes._register_shipment_ws` (routes.py lines 538-598).  Inputs:
the route's `order_id`; the result of the `uSp_isOrderNotShipped` call made
by `check_order_not_shipped`; the `fetchone` result of
`uSp_getOrdersForShipmentWS` (`none` for a falsy/absent row); and the
carrier exchange as in `request_shipment_ws`.  Returns the response and the
trace of carrier/mutation effects. -/
def register_shipment_ws (order_id : String)
    (notShippedResult : Except String (List OrderRow))
    (shipment_data : Option Envio)
    (transport : Except String (Except String Xml)) :
    WsResult × List Effect :=
  if order_id = "" then
    (.httpError 400 "idOrder es requerido para shipmentType=usingWS", [])
  else if check_order_not_shipped notShippedResult = false then
    (.ok (success_response .noData 0 (some "El pedido ya fue enviado") none none), [])
  else
    match shipment_data with
    | none => (.ok (empty_response .noData), [])
    | some envio =>
      let gls_response := request_shipment_ws transport envio
      if gls_response.codResponseWS = "0" then
        (.ok (success_response (.outcome gls_response) 1 none none none),
         [ Effect.carrierCall
         , Effect.updateOrdersDetailWS gls_response.idOrder
             (gls_response.uidExp.getD "") (gls_response.exp.getD "")
             (gls_response.codBar.getD "")
         , Effect.commit
         , Effect.updateShipmentWS order_id
         , Effect.commit
         , Effect.updateOrdersWS order_id (gls_response.exp.getD "")
         , Effect.commit ])
      else
        (.ok (success_response (.outcome gls_response) 1 none none none),
         [Effect.carrierCall])

/-! ## The bulk-file registration (routes.py `_register_shipment_file`) -/

/-- Local date-time used for the file name timestamp. -/
structure DateTime where
  day : Nat
  month : Nat
  year : Nat
  hour : Nat
  minute : Nat
  second : Nat
deriving DecidableEq, Repr

/-- Decimal digit character of `n % 10`. -/
def digitChar (n : Nat) : Char :=
  match n % 10 with
  | 0 => '0' | 1 => '1' | 2 => '2' | 3 => '3' | 4 => '4'
  | 5 => '5' | 6 => '6' | 7 => '7' | 8 => '8' | _ => '9'

/-- Two-digit zero-padded rendering (model of strftime `%d`, `%m`, ...). -/
def pad2 (n : Nat) : String :=
  ⟨[digitChar (n / 10), digitChar n]⟩

/-- Four-digit zero-padded rendering (model of strftime `%Y`). -/
def pad4 (n : Nat) : String :=
  ⟨[digitChar (n / 1000), digitChar (n / 100), digitChar (n / 10), digitChar n]⟩

/-- `datetime.now().strftime('%d%m%Y_%H%M%S')`. -/
def fmtTimestamp (dt : DateTime) : String :=
  pad2 dt.day ++ pad2 dt.month ++ pad4 dt.year ++ "_" ++
    pad2 dt.hour ++ pad2 dt.minute ++ pad2 dt.second

/-- `datetime.now().strftime("%d/%m/%Y")` (services.py line 105). -/
def fmtFecha (dt : DateTime) : String :=
  pad2 dt.day ++ "/" ++ pad2 dt.month ++ "/" ++ pad4 dt.year

/-- A row returned by `uSp_getOrdersForShipmentFile`: opaque column data
plus the `fileGenerateName` key the handler writes into each record. -/
structure ShipRow where
  base : List (String × String)
  fileGenerateName : Option String
deriving DecidableEq, Repr

/-- `routes._register_shipment_file` (routes.py lines 503-535): rows are the
stored-procedure read; `now` the wall clock at the `strftime` call. -/
def register_shipment_file (rows : List ShipRow) (now : DateTime) :
    ApiResponse (List ShipRow) × List Effect :=
  if rows.isEmpty then
    (empty_response [], [])
  else
    let file_name := "Envios_" ++ fmtTimestamp now ++ ".xlsx"
    let rows' := rows.map (fun r => { r with fileGenerateName := some file_name })
    (success_response rows' 1 none none none,
     [ Effect.updateShipmentFile file_name
     , Effect.commit
     , Effect.updateOrdersDetailFile
     , Effect.commit ])

/-! ## Substring occurrence counting

Used to state that the SOAP template contains exactly one reference
element: `countTok l t` is the number of positions of `l` at which the
token `t` occurs. -/

/-- `isPre t l`: `t` is a prefix of `l` (boolean). -/
def isPre : List Char → List Char → Bool
  | [], _ => true
  | _ :: _, [] => false
  | a :: as, b :: bs => a == b && isPre as bs

/-- Number of positions of `l` at which the token `t` occurs. -/
def countTok : List Char → List Char → Nat
  | [], _ => 0
  | x :: rest, t => (if isPre t (x :: rest) then 1 else 0) + countTok rest t

/-- No proper suffix of `c` shorter than `t` coincides with the prefix of
`t` of its length: occurrences of `t` starting inside `c` cannot overrun
the end of `c`. -/
abbrev noSpanSplit (c t : List Char) : Prop :=
  ∀ k, k < t.length → 0 < k → c.drop (c.length - k) ≠ t.take k


/-- Template segment: a literal piece or an interpolated value. -/
inductive Seg where
  | c (s : String)
  | v (s : String)

/-- The character stream of a segment list. -/
def renderSegs : List Seg → List Char
  | [] => []
  | .c s :: rest => s.data ++ renderSegs rest
  | .v s :: rest => s.data ++ renderSegs rest

/-- Occurrences contributed by one segment when interpolated values are
markup-free: a literal contributes its own count, a value none. -/
def segCount (t : List Char) : Seg → Nat
  | .c s => countTok s.data t
  | .v _ => 0


/-! ## The carrier request builder (services.py `generate_soap_xml`) -/

/-- The GLS account configuration interpolated into the template
(services.py lines 81-93; `url_save_ship` is the endpoint, unused by the
template itself). -/
structure GlsConfig where
  uid_cliente : String
  portes : String
  reembolso : String
  nombre_org : String
  direccion_org : String
  poblacion_org : String
  pais_org : String
  cp_org : String
deriving DecidableEq, Repr

/-- The `xml_template` of services.py lines 108-156 with its placeholders
replaced by interpolated values, split into literal (`Seg.c`) and value
(`Seg.v`) segments in template order.  Literal segments around the
claim-relevant markup (`<Fecha>`, the type-C reference, the PDF label
request) are kept as their own entries. -/
def soapSegs (cfg : GlsConfig) (envio : Envio) (fecha : String) : List Seg :=
  [ .c "<?xml version=\"1.0\" encoding=\"utf-8\"?>\n<soap12:Envelope xmlns:xsi=\"http://www.w3.org/2001/XMLSchema-instance\"\n                 xmlns:xsd=\"http://www.w3.org/2001/XMLSchema\"\n                 xmlns:soap12=\"http://www.w3.org/2003/05/soap-envelope\">\n<soap12:Body>\n<GrabaServicios xmlns=\"http://www.asmred.com/\">\n<docIn>\n   <Servicios uidcliente=\""
  , .v cfg.uid_cliente
  , .c "\" xmlns=\"http://www.asmred.com/\">\n   <Envio>\n      "
  , .c "<Fecha>"
  , .v fecha
  , .c "</Fecha>"
  , .c "\n      <Servicio>"
  , .v envio.servicio
  , .c "</Servicio>\n      <Horario>"
  , .v envio.horario
  , .c "</Horario>\n      <Bultos>"
  , .v envio.bultos
  , .c "</Bultos>\n      <Peso>"
  , .v envio.peso
  , .c "</Peso>\n      <Portes>"
  , .v cfg.portes
  , .c "</Portes>\n      <Importes>\n         <Reembolso>"
  , .v cfg.reembolso
  , .c "</Reembolso>\n      </Importes>\n      <Remite>\n         <Nombre>"
  , .v cfg.nombre_org
  , .c "</Nombre>\n         <Direccion>"
  , .v cfg.direccion_org
  , .c "</Direccion>\n         <Poblacion>"
  , .v cfg.poblacion_org
  , .c "</Poblacion>\n         <Pais>"
  , .v cfg.pais_org
  , .c "</Pais>\n         <CP>"
  , .v cfg.cp_org
  , .c "</CP>\n      </Remite>\n      <Destinatario>\n         <Nombre>"
  , .v envio.destinatario
  , .c "</Nombre>\n         <Direccion>"
  , .v envio.direccion
  , .c "</Direccion>\n         <Poblacion>"
  , .v envio.poblacion
  , .c "</Poblacion>\n         <Pais>"
  , .v envio.pais
  , .c "</Pais>\n         <CP>"
  , .v envio.cp
  , .c "</CP>\n         <Telefono>"
  , .v envio.telefono
  , .c "</Telefono>\n         <Movil>"
  , .v envio.movil
  , .c "</Movil>\n         <Email>"
  , .v envio.email
  , .c "</Email>\n         <Departamento>"
  , .v envio.departamento
  , .c "</Departamento>\n         <Observaciones>"
  , .v envio.observaciones
  , .c "</Observaciones>\n      </Destinatario>\n      <Referencias>\n         "
  , .c "<Referencia tipo=\"C\">"
  , .v envio.refC
  , .c "</Referencia>"
  , .c "\n      </Referencias>\n      <DevuelveAdicionales>\n         "
  , .c "<Etiqueta tipo=\"PDF\"/>"
  , .c "\n      </DevuelveAdicionales>\n   </Envio>\n   </Servicios>\n   </docIn>\n</GrabaServicios>\n</soap12:Body>\n</soap12:Envelope>" ]

/-- `GLSService.generate_soap_xml` (services.py lines 95-161):
`fecha = datetime.now().strftime("%d/%m/%Y")` followed by
`xml_template.format(**{**config, **envio, "fecha": fecha})`.
The wall clock is passed explicitly; the function is otherwise pure. -/
def generate_soap_xml (cfg : GlsConfig) (envio : Envio) (now : DateTime) :
    String :=
  ⟨renderSegs (soapSegs cfg envio (fmtFecha now))⟩

/-- The opening markup of the single type-C reference, as a token. -/
def refTok : List Char := "<Referencia tipo=\"C\">".data

/-- A string free of markup-opening characters. -/
abbrev LtFree (s : String) : Prop := '<' ∉ s.data

/-- All envio fields interpolated into the template are markup-free. -/
abbrev Envio.ltFree (e : Envio) : Prop :=
  LtFree e.servicio ∧ LtFree e.horario ∧ LtFree e.bultos ∧ LtFree e.peso ∧
  LtFree e.destinatario ∧ LtFree e.direccion ∧ LtFree e.poblacion ∧
  LtFree e.pais ∧ LtFree e.cp ∧ LtFree e.telefono ∧ LtFree e.movil ∧
  LtFree e.email ∧ LtFree e.departamento ∧ LtFree e.observaciones ∧
  LtFree e.refC

/-- All config fields interpolated into the template are markup-free. -/
abbrev GlsConfig.ltFree (c : GlsConfig) : Prop :=
  LtFree c.uid_cliente ∧ LtFree c.portes ∧ LtFree c.reembolso ∧
  LtFree c.nombre_org ∧ LtFree c.direccion_org ∧ LtFree c.poblacion_org ∧
  LtFree c.pais_org ∧ LtFree c.cp_org


/-! ## The queue-insertion endpoint (routes.py `create_order_ready_to_ship`) -/

/-- Response of `utils.created_response` (utils.py 56-61): the custom
message survives only when at least one row was inserted. -/
structure CreatedResponse where
  insertedRows : Nat
  message : String
deriving DecidableEq, Repr

/-- `utils.created_response(rows_affected, message)`. -/
def created_response (rows_affected : Nat) (message : String) :
    CreatedResponse :=
  { insertedRows := rows_affected
  , message := if rows_affected > 0 then message else "No se insertó el registro" }

/-- The fields of `schemas.ShipmentData` consumed by the handler's control
flow and traced calls (the remaining recipient fields are passed through
to the insert procedure verbatim). -/
structure ShipmentReq where
  idOrder : String
  shipmentType : String
  value : Nat
deriving DecidableEq, Repr

/-- `routes.create_order_ready_to_ship` (routes.py lines 318-386):
`existsResult` / `notShippedResult` are the two validation reads,
`insert_rowcount` the row count reported by `uSp_insertSelectedshipment`. -/
def create_order_ready_to_ship (data : ShipmentReq)
    (existsResult notShippedResult : Except String (List OrderRow))
    (insert_rowcount : Nat) : CreatedResponse × List Effect :=
  if check_order_exists existsResult = false then
    (created_response 0 "El pedido no existe", [])
  else if check_order_not_shipped notShippedResult = false then
    (created_response 0 "El pedido ya fue enviado", [])
  else
    let sp := if data.shipmentType = "usingFile" then "uSp_updateMarkShipment"
              else "uSp_updateSelectedShipment"
    (created_response insert_rowcount "Registro insertado",
     [ Effect.callUpdateMark sp data.value data.idOrder
     , Effect.commit
     , Effect.insertSelectedShipment data.idOrder
     , Effect.commit ])

/-! ## Concrete fixtures for witnesses and counterexamples -/

/-- An unshipped order row. -/
def row1 : OrderRow := ⟨"X1", false⟩

/-- A concrete shipment-fields row for order `X1` (markup-free values). -/
def envio0 : Envio :=
  ⟨"X1", "1", "3", "1", "2.5", "Cliente Uno", "Calle Mayor 1", "Madrid",
   "ES", "28001", "911111111", "611111111", "c@x.es", "", "sin obs", "X1"⟩

/-- The same shipment fields with carrier markup injected into the free-text
notes field. -/
def envioInj : Envio :=
  ⟨"X1", "1", "3", "1", "2.5", "Cliente Uno", "Calle Mayor 1", "Madrid",
   "ES", "28001", "911111111", "611111111", "c@x.es", "",
   "<Referencia tipo=\"C\">HACK</Referencia>", "X1"⟩

/-- A concrete carrier configuration (markup-free values). -/
def cfg0 : GlsConfig :=
  ⟨"uid-1", "P", "0", "Toolstock", "Calle Dos 2", "Madrid", "ES", "28002"⟩

/-- A concrete wall-clock instant. -/
def dt0 : DateTime := ⟨7, 3, 2025, 14, 30, 5⟩

/-- Success response document: result node with code `"0"`. -/
def resultadoOk : Xml := .el "Resultado" [("return", "0")] none .nil

def refNode1 : Xml := .el "Referencia" [("tipo", "C")] (some "X1") .nil

def refNode2 : Xml := .el "Referencia" [("tipo", "0")] (some "ALB1") .nil

def refsNode : Xml := .el "Referencias" [] none (XmlForest.ofList [refNode1, refNode2])

def etiqNode : Xml := .el "Etiqueta" [("tipo", "PDF")] (some "QkFTRTY0") .nil

def etiquetasNode : Xml := .el "Etiquetas" [] none (XmlForest.ofList [etiqNode])

def envioOkNode : Xml :=
  .el "Envio" [("codbarras", "BC1"), ("uid", "U-1"), ("codexp", "EXP1")] none
    (XmlForest.ofList [resultadoOk, refsNode, etiquetasNode])

def grabaOkNode : Xml := .el grabaTag [] none (XmlForest.ofList [envioOkNode])

def docOk : Xml := .el "GrabaServiciosResponse" [] none (XmlForest.ofList [grabaOkNode])

/-- Response document whose result code is the string `"00"`. -/
def resultado00 : Xml := .el "Resultado" [("return", "00")] none .nil

def envio00Node : Xml := .el "Envio" [] none (XmlForest.ofList [resultado00])

def graba00Node : Xml := .el grabaTag [] none (XmlForest.ofList [envio00Node])

def doc00 : Xml := .el "r" [] none (XmlForest.ofList [graba00Node])

/-- Response document with table-known error code `"-3"`. -/
def errNode3 : Xml := .el "Error" [] (some "codbar duplicado") .nil

def erroresNode3 : Xml := .el "Errores" [] none (XmlForest.ofList [errNode3])

def resultado3 : Xml := .el "Resultado" [("return", "-3")] none .nil

def envio3Node : Xml := .el "Envio" [] none (XmlForest.ofList [resultado3, erroresNode3])

def graba3Node : Xml := .el grabaTag [] none (XmlForest.ofList [envio3Node])

def doc3 : Xml := .el "r" [] none (XmlForest.ofList [graba3Node])

/-- Response document with a code outside the static table. -/
def errNodeU : Xml := .el "Error" [] (some "fallo raro") .nil

def erroresNodeU : Xml := .el "Errores" [] none (XmlForest.ofList [errNodeU])

def resultadoU : Xml := .el "Resultado" [("return", "-77")] none .nil

def envioUNode : Xml := .el "Envio" [] none (XmlForest.ofList [resultadoU, erroresNodeU])

def grabaUNode : Xml := .el grabaTag [] none (XmlForest.ofList [envioUNode])

def docU : Xml := .el "r" [] none (XmlForest.ofList [grabaUNode])

/-- Response document whose shipment node has no result node. -/
def envioNoResNode : Xml := .el "Envio" [] none (XmlForest.ofList [.el "Otro" [] none .nil])

def grabaNoResNode : Xml := .el grabaTag [] none (XmlForest.ofList [envioNoResNode])

def docNoRes : Xml := .el "r" [] none (XmlForest.ofList [grabaNoResNode])

/-- Result envelope without a shipment node. -/
def grabaNoEnvioNode : Xml := .el grabaTag [] none .nil

def docNoEnvio : Xml := .el "r" [] none (XmlForest.ofList [grabaNoEnvioNode])

/-- Document without the result envelope. -/
def docNoGraba : Xml := .el "r" [] none .nil

/-- A concrete bulk-file row. -/
def shipRow0 : ShipRow := ⟨[("amazonOrderId", "X1")], none⟩

def shipRow1 : ShipRow := ⟨[("amazonOrderId", "X2")], none⟩

/-! ## Helper lemmas -/

theorem string_data_append (a b : String) : (a ++ b).data = a.data ++ b.data := by
  cases a; cases b; rfl

theorem renderSegs_append (a b : List Seg) :
    renderSegs (a ++ b) = renderSegs a ++ renderSegs b := by
  induction a with
  | nil => rfl
  | cons s ss ih =>
    cases s <;> simp [renderSegs, ih, List.append_assoc]

theorem glsErrors_lookup_nonempty (c m : String)
    (h : glsErrors.lookup c = some m) : m ≠ "" := by
  simp only [glsErrors, List.lookup] at h
  repeat' split at h
  all_goals simp_all
  all_goals (intro hm; rw [← h] at hm; exact absurd hm (by decide))

/-- Shared evaluation of the carrier-business-error branch of
`_parse_gls_response`: for a located result node with a non-`"0"` code the
parser returns the error-branch record. -/
theorem parse_nonzero_branch (root rn en res : Xml) (order_id code : String)
    (h1 : root.findDesc grabaTag = some rn)
    (h2 : rn.findDesc "Envio" = some en)
    (h3 : en.findDesc "Resultado" = some res)
    (h4 : res.get "return" "-1" = code)
    (h5 : code ≠ "0") :
    parse_gls_response (.ok root) order_id =
      { codResponseWS := code
      , responseWS := extract_error_msg en
      , messageWS := pyOrStr (get_error_message code) (extract_error_msg en)
      , idOrder := order_id
      , uidExp := none, codBar := none, exp := none, refs := none
      , labelBase64 := none } := by
  simp [parse_gls_response, h1, h2, h3, h4, h5]

theorem isPre_append (t c b : List Char) (h : isPre t c = true) :
    isPre t (c ++ b) = true := by
  induction t generalizing c with
  | nil => rfl
  | cons a as ih =>
    cases c with
    | nil => simp [isPre] at h
    | cons x cs =>
      simp only [isPre, Bool.and_eq_true] at h ⊢
      exact ⟨h.1, ih cs h.2⟩

theorem isPre_of_append_long (t c b : List Char) (hlen : t.length ≤ c.length)
    (h : isPre t (c ++ b) = true) : isPre t c = true := by
  induction t generalizing c with
  | nil => rfl
  | cons a as ih =>
    cases c with
    | nil => simp at hlen
    | cons x cs =>
      simp only [List.cons_append, isPre, Bool.and_eq_true] at h ⊢
      exact ⟨h.1, ih cs (by simpa using hlen) h.2⟩

theorem isPre_of_append_short (t c b : List Char) (hlen : c.length < t.length)
    (h : isPre t (c ++ b) = true) : isPre c t = true := by
  induction c generalizing t with
  | nil => rfl
  | cons x cs ih =>
    cases t with
    | nil => simp at hlen
    | cons a as =>
      simp only [List.cons_append, isPre, Bool.and_eq_true] at h ⊢
      refine ⟨by simpa [BEq.comm] using h.1, ih as (by simpa using hlen) h.2⟩

theorem take_eq_of_isPre (c t : List Char) (h : isPre c t = true) :
    t.take c.length = c := by
  induction c generalizing t with
  | nil => rfl
  | cons x cs ih =>
    cases t with
    | nil => simp [isPre] at h
    | cons a as =>
      simp only [isPre, Bool.and_eq_true, beq_iff_eq] at h
      simp [List.take, ih as h.2, h.1]

theorem noSpanSplit_tail (x : Char) (cs t : List Char)
    (h : noSpanSplit (x :: cs) t) : noSpanSplit cs t := by
  intro k hk hk0
  by_cases hkc : k ≤ cs.length
  · have h' := h k hk hk0
    have hdrop : (x :: cs).drop ((x :: cs).length - k) = cs.drop (cs.length - k) := by
      have : (x :: cs).length - k = (cs.length - k) + 1 := by
        simp only [List.length_cons]
        omega
      rw [this, List.drop_succ_cons]
    rw [hdrop] at h'
    exact h'
  · intro heq
    have hlen := congrArg List.length heq
    simp only [List.length_drop, List.length_take] at hlen
    omega

theorem countTok_append_const (c b t : List Char) (h : noSpanSplit c t) :
    countTok (c ++ b) t = countTok c t + countTok b t := by
  induction c with
  | nil => simp [countTok]
  | cons x cs ih =>
    have hhead : isPre t ((x :: cs) ++ b) = isPre t (x :: cs) := by
      by_cases hp : isPre t (x :: cs) = true
      · rw [hp, isPre_append t (x :: cs) b hp]
      · rw [Bool.eq_false_iff.mpr hp]
        rw [Bool.eq_false_iff]
        intro hq
        by_cases hlen : t.length ≤ (x :: cs).length
        · exact hp (isPre_of_append_long t (x :: cs) b hlen hq)
        · push_neg at hlen
          have hpre := isPre_of_append_short t (x :: cs) b hlen hq
          have htake := take_eq_of_isPre (x :: cs) t hpre
          have hns := h (x :: cs).length hlen (by simp)
          rw [Nat.sub_self, List.drop_zero] at hns
          exact hns htake.symm
    have hrec := ih (noSpanSplit_tail x cs t h)
    calc countTok ((x :: cs) ++ b) t
        = (if isPre t ((x :: cs) ++ b) then 1 else 0) + countTok (cs ++ b) t := by
          simp [countTok]
      _ = (if isPre t (x :: cs) then 1 else 0) + (countTok cs t + countTok b t) := by
          rw [hhead, hrec]
      _ = countTok (x :: cs) t + countTok b t := by
          simp [countTok]; omega

theorem countTok_append_val (v b t : List Char) (ht : t.head? = some '<')
    (hv : '<' ∉ v) : countTok (v ++ b) t = countTok b t := by
  induction v with
  | nil => rfl
  | cons x vs ih =>
    obtain ⟨ts, rfl⟩ : ∃ ts, t = '<' :: ts := by
      cases t with
      | nil => simp at ht
      | cons a as =>
        have ha : a = '<' := by simpa using ht
        exact ⟨as, by rw [ha]⟩
    have hx : ('<' == x) = false :=
      beq_eq_false_iff_ne.mpr
        (fun hcontr => hv (by rw [hcontr]; exact List.mem_cons_self x vs))
    simp only [List.cons_append, countTok, isPre, hx, Bool.false_and,
      Bool.false_eq_true, if_false, Nat.zero_add]
    exact ih (fun hm => hv (List.mem_cons_of_mem x hm))

theorem countTok_renderSegs (segs : List Seg) (t : List Char)
    (ht : t.head? = some '<')
    (hc : ∀ s, Seg.c s ∈ segs → noSpanSplit s.data t)
    (hv : ∀ s, Seg.v s ∈ segs → '<' ∉ s.data) :
    countTok (renderSegs segs) t = (segs.map (segCount t)).sum := by
  induction segs with
  | nil => simp [renderSegs, countTok]
  | cons s ss ih =>
    have ih' := ih (fun s' hm => hc s' (List.mem_cons_of_mem s hm))
      (fun s' hm => hv s' (List.mem_cons_of_mem s hm))
    cases s with
    | c str =>
      simp only [renderSegs, List.map_cons, List.sum_cons, segCount]
      rw [countTok_append_const str.data (renderSegs ss) t
        (hc str (List.mem_cons_self _ _)), ih']
    | v str =>
      simp only [renderSegs, List.map_cons, List.sum_cons, segCount]
      rw [countTok_append_val str.data (renderSegs ss) t ht
        (hv str (List.mem_cons_self _ _)), ih']
      omega

theorem digitChar_ne_lt (n : Nat) : digitChar n ≠ '<' := by
  unfold digitChar
  split <;> decide

theorem fmtFecha_ltFree (dt : DateTime) : LtFree (fmtFecha dt) := by
  intro hmem
  have hdata : (fmtFecha dt).data =
      [ digitChar (dt.day / 10), digitChar dt.day, '/',
        digitChar (dt.month / 10), digitChar dt.month, '/',
        digitChar (dt.year / 1000), digitChar (dt.year / 100),
        digitChar (dt.year / 10), digitChar dt.year ] := rfl
  rw [hdata] at hmem
  simp only [List.mem_cons, List.not_mem_nil, or_false] at hmem
  rcases hmem with h | h | h | h | h | h | h | h | h | h <;>
    first
      | exact digitChar_ne_lt _ h.symm
      | exact absurd h (by decide)

/-! ## Claim theorems -/

/-- C10: for every response document and order id, the outcome produced by
the parser — in every branch: success, carrier business error, structural
error, and internal (parse) exception — and by the error-response builder
carries an order-identifier field equal to the order id argument passed in. -/
theorem C10_outcome_carries_order_id :
    (∀ (input : Except String Xml) (order_id : String),
      (parse_gls_response input order_id).idOrder = order_id) ∧
    (∀ (e order_id : String),
      (build_error_response e order_id).idOrder = order_id) := by
  refine ⟨fun input order_id => ?_, fun e order_id => rfl⟩
  cases input with
  | error e => rfl
  | ok root =>
    cases hg : root.findDesc grabaTag with
    | none => simp [parse_gls_response, build_error_response, hg]
    | some rn =>
      cases he : rn.findDesc "Envio" with
      | none => simp [parse_gls_response, build_error_response, hg, he]
      | some en =>
        cases hr : en.findDesc "Resultado" with
        | none => simp [parse_gls_response, build_error_response, hg, he, hr]
        | some res =>
          by_cases h0 : res.get "return" "-1" = "0" <;>
            simp [parse_gls_response, hg, he, hr, h0]

/-- C4: the parser is a total function (no branch propagates an exception),
and every failure — malformed document, each missing node, and every
transport failure in the carrier client — resolves to the error-response
outcome, which carries result code `"-1"` and descriptive message text. -/
theorem C4_failures_resolve_to_error_outcome :
    (∀ (e order_id : String),
      parse_gls_response (.error e) order_id =
        build_error_response ("Error parseando respuesta: " ++ e) order_id) ∧
    (∀ (root : Xml) (order_id : String), root.findDesc grabaTag = none →
      parse_gls_response (.ok root) order_id =
        build_error_response "Respuesta XML inválida" order_id) ∧
    (∀ (root rn : Xml) (order_id : String),
      root.findDesc grabaTag = some rn → rn.findDesc "Envio" = none →
      parse_gls_response (.ok root) order_id =
        build_error_response "Nodo Envio no encontrado" order_id) ∧
    (∀ (root rn en : Xml) (order_id : String),
      root.findDesc grabaTag = some rn → rn.findDesc "Envio" = some en →
      en.findDesc "Resultado" = none →
      parse_gls_response (.ok root) order_id =
        build_error_response "Nodo Resultado no encontrado" order_id) ∧
    (∀ (e : String) (envio : Envio),
      request_shipment_ws (.error e) envio =
        build_error_response e envio.idOrder) ∧
    (∀ (e order_id : String),
      (build_error_response e order_id).codResponseWS = "-1" ∧
      (build_error_response e order_id).responseWS = some e ∧
      (build_error_response e order_id).messageWS = some "Error en solicitud GLS") := by
  refine ⟨fun e order_id => rfl, ?_, ?_, ?_, fun e envio => rfl,
    fun e order_id => ⟨rfl, rfl, rfl⟩⟩
  · intro root order_id h
    simp [parse_gls_response, h]
  · intro root rn order_id hg he
    simp [parse_gls_response, hg, he]
  · intro root rn en order_id hg he hr
    simp [parse_gls_response, hg, he, hr]

/-- C4 witness: concrete failing inputs for each failure class. -/
theorem C4_witness :
    parse_gls_response (.error "boom") "A" =
      build_error_response "Error parseando respuesta: boom" "A" ∧
    parse_gls_response (.ok docNoGraba) "A" =
      build_error_response "Respuesta XML inválida" "A" ∧
    parse_gls_response (.ok docNoEnvio) "A" =
      build_error_response "Nodo Envio no encontrado" "A" ∧
    parse_gls_response (.ok docNoRes) "A" =
      build_error_response "Nodo Resultado no encontrado" "A" ∧
    request_shipment_ws (.error "timeout") envio0 =
      build_error_response "timeout" "X1" ∧
    (build_error_response "timeout" "X1").codResponseWS = "-1" := by
  exact ⟨C4_failures_resolve_to_error_outcome.1 "boom" "A",
    C4_failures_resolve_to_error_outcome.2.1 docNoGraba "A" rfl,
    C4_failures_resolve_to_error_outcome.2.2.1 docNoEnvio grabaNoEnvioNode "A" rfl rfl,
    C4_failures_resolve_to_error_outcome.2.2.2.1 docNoRes grabaNoResNode
      envioNoResNode "A" rfl rfl rfl,
    C4_failures_resolve_to_error_outcome.2.2.2.2.1 "timeout" envio0,
    (C4_failures_resolve_to_error_outcome.2.2.2.2.2 "timeout" "X1").1⟩

/-- C3: for every response document whose result code attribute is any
string other than exactly `"0"` (exact string comparison, so `"00"` does
not match), the parsed outcome contains no carrier-assigned identifiers
(no expedition id, tracking code, barcode, references, or label) and its
message is the static code-table entry for that code, or the error text
extracted from the document when the code is not in the table. -/
theorem C3_nonzero_code_no_identifiers (root rn en res : Xml)
    (order_id code : String)
    (h1 : root.findDesc grabaTag = some rn)
    (h2 : rn.findDesc "Envio" = some en)
    (h3 : en.findDesc "Resultado" = some res)
    (h4 : res.get "return" "-1" = code)
    (h5 : code ≠ "0") :
    (parse_gls_response (.ok root) order_id).uidExp = none ∧
    (parse_gls_response (.ok root) order_id).codBar = none ∧
    (parse_gls_response (.ok root) order_id).exp = none ∧
    (parse_gls_response (.ok root) order_id).refs = none ∧
    (parse_gls_response (.ok root) order_id).labelBase64 = none ∧
    (parse_gls_response (.ok root) order_id).codResponseWS = code ∧
    (∀ m, glsErrors.lookup code = some m →
      (parse_gls_response (.ok root) order_id).messageWS = some m) ∧
    (glsErrors.lookup code = none →
      (parse_gls_response (.ok root) order_id).messageWS = extract_error_msg en) := by
  have hout := parse_nonzero_branch root rn en res order_id code h1 h2 h3 h4 h5
  rw [hout]
  refine ⟨rfl, rfl, rfl, rfl, rfl, rfl, ?_, ?_⟩
  · intro m hm
    show pyOrStr (get_error_message code) (extract_error_msg en) = some m
    rw [get_error_message, hm]
    simp [pyOrStr, glsErrors_lookup_nonempty code m hm]
  · intro hn
    show pyOrStr (get_error_message code) (extract_error_msg en) = extract_error_msg en
    rw [get_error_message, hn]
    rfl

/-- C3 witness: a document with code `"00"` (not in the table) yields no
identifiers and the extracted error text. -/
theorem C3_witness :
    (parse_gls_response (.ok doc00) "P1").uidExp = none ∧
    (parse_gls_response (.ok doc00) "P1").refs = none ∧
    (parse_gls_response (.ok doc00) "P1").codResponseWS = "00" ∧
    (parse_gls_response (.ok doc00) "P1").messageWS = extract_error_msg envio00Node := by
  have h := C3_nonzero_code_no_identifiers doc00 graba00Node envio00Node
    resultado00 "P1" "00" rfl rfl rfl rfl (by decide)
  exact ⟨h.1, h.2.2.2.1, h.2.2.2.2.2.1, h.2.2.2.2.2.2.2 (by decide)⟩

/-- C6 counterexample: a document whose shipment node lacks the result node
parses to code `"-1"`, but the `messageWS` field of the outcome is the
generic `"Error en solicitud GLS"`; the string "Nodo Resultado no
encontrado" is carried in the raw `responseWS` field instead. -/
theorem C6_counterexample :
    (envioNoResNode.findDesc "Resultado").isNone = true ∧
    (parse_gls_response (.ok docNoRes) "P1").codResponseWS = "-1" ∧
    (parse_gls_response (.ok docNoRes) "P1").messageWS ≠
      some "Nodo Resultado no encontrado" ∧
    (parse_gls_response (.ok docNoRes) "P1").responseWS =
      some "Nodo Resultado no encontrado" ∧
    (parse_gls_response (.ok docNoRes) "P1").messageWS =
      some "Error en solicitud GLS" := by
  refine ⟨rfl, rfl, ?_, rfl, rfl⟩
  have hmsg : (parse_gls_response (.ok docNoRes) "P1").messageWS =
      some "Error en solicitud GLS" := rfl
  rw [hmsg]
  decide

/-- C6 (amended): for every response document in which the result node is
absent from the shipment node, parsing yields the error outcome with result
code `"-1"` whose raw response field is "Nodo Resultado no encontrado"
("result node not found") and whose message field is the generic
"Error en solicitud GLS". -/
theorem C6_amended_result_node_missing (root rn en : Xml) (order_id : String)
    (h1 : root.findDesc grabaTag = some rn)
    (h2 : rn.findDesc "Envio" = some en)
    (h3 : en.findDesc "Resultado" = none) :
    parse_gls_response (.ok root) order_id =
      build_error_response "Nodo Resultado no encontrado" order_id ∧
    (parse_gls_response (.ok root) order_id).codResponseWS = "-1" ∧
    (parse_gls_response (.ok root) order_id).responseWS =
      some "Nodo Resultado no encontrado" ∧
    (parse_gls_response (.ok root) order_id).messageWS =
      some "Error en solicitud GLS" := by
  have hout : parse_gls_response (.ok root) order_id =
      build_error_response "Nodo Resultado no encontrado" order_id := by
    simp [parse_gls_response, h1, h2, h3]
  exact ⟨hout, by rw [hout]; rfl, by rw [hout]; rfl, by rw [hout]; rfl⟩

/-- C6 witness: the amended statement at a concrete document. -/
theorem C6_witness :
    parse_gls_response (.ok docNoRes) "W1" =
      build_error_response "Nodo Resultado no encontrado" "W1" ∧
    (parse_gls_response (.ok docNoRes) "W1").codResponseWS = "-1" := by
  have h := C6_amended_result_node_missing docNoRes grabaNoResNode
    envioNoResNode "W1" rfl rfl rfl
  exact ⟨h.1, h.2.1⟩

/-- C5 counterexample: the static error table has 13 entries, not 14. -/
theorem C5_counterexample : glsErrors.length = 13 ∧ glsErrors.length ≠ 14 := by
  decide

/-- C5 (amended): the static error code-to-message table contains 13 known
codes; for a carrier reply with the table-known code `"-3"` the outcome's
message equals that table entry, and for a code not in the table the
message falls back to the raw error text extracted from the document. -/
theorem C5_amended_table_13_codes :
    glsErrors.length = 13 ∧
    (∀ (root rn en res : Xml) (order_id : String),
      root.findDesc grabaTag = some rn → rn.findDesc "Envio" = some en →
      en.findDesc "Resultado" = some res → res.get "return" "-1" = "-3" →
      (parse_gls_response (.ok root) order_id).messageWS =
        some "Error, El código de barras del envío ya existe.") ∧
    (∀ (root rn en res : Xml) (order_id code : String),
      root.findDesc grabaTag = some rn → rn.findDesc "Envio" = some en →
      en.findDesc "Resultado" = some res → res.get "return" "-1" = code →
      code ≠ "0" → glsErrors.lookup code = none →
      (parse_gls_response (.ok root) order_id).messageWS =
        extract_error_msg en) := by
  refine ⟨rfl, ?_, ?_⟩
  · intro root rn en res order_id h1 h2 h3 h4
    rw [parse_nonzero_branch root rn en res order_id "-3" h1 h2 h3 h4
      (by decide)]
    rfl
  · intro root rn en res order_id code h1 h2 h3 h4 h5 h6
    rw [parse_nonzero_branch root rn en res order_id code h1 h2 h3 h4 h5]
    show pyOrStr (get_error_message code) (extract_error_msg en) =
      extract_error_msg en
    rw [get_error_message, h6]
    rfl

/-- C5 witness: the `"-3"` document gets the table entry; the `"-77"`
document (code not in the table) gets the extracted error text. -/
theorem C5_witness :
    glsErrors.length = 13 ∧
    (parse_gls_response (.ok doc3) "P3").messageWS =
      some "Error, El código de barras del envío ya existe." ∧
    (parse_gls_response (.ok docU) "P4").messageWS = extract_error_msg envioUNode ∧
    extract_error_msg envioUNode = some "fallo raro" := by
  refine ⟨C5_amended_table_13_codes.1, ?_, ?_, rfl⟩
  · exact C5_amended_table_13_codes.2.1 doc3 graba3Node envio3Node resultado3
      "P3" rfl rfl rfl rfl
  · exact C5_amended_table_13_codes.2.2 docU grabaUNode envioUNode resultadoU
      "P4" "-77" rfl rfl rfl rfl (by decide) (by decide)

/-- C9: the order-existence and not-yet-shipped precondition checks return
`False` whenever their underlying database call raises an exception, so a
data-layer failure during a check is reported to the caller through the
precondition-failure path — `created_response(0, "El pedido no existe")` /
`created_response(0, "El pedido ya fue enviado")` on the queue-insertion
endpoint and the zero-content "El pedido ya fue enviado" response on the
web-service registration path — with no mutation and no internal error. -/
theorem C9_db_error_reported_as_precondition_failure (e : String) :
    check_order_exists (.error e) = false ∧
    check_order_not_shipped (.error e) = false ∧
    (∀ (data : ShipmentReq) (notShipped : Except String (List OrderRow))
        (n : Nat),
      create_order_ready_to_ship data (.error e) notShipped n =
        (created_response 0 "El pedido no existe", [])) ∧
    (∀ (data : ShipmentReq) (rows : List OrderRow) (n : Nat), rows ≠ [] →
      create_order_ready_to_ship data (.ok rows) (.error e) n =
        (created_response 0 "El pedido ya fue enviado", [])) ∧
    (∀ (order_id : String) (sd : Option Envio)
        (tr : Except String (Except String Xml)), order_id ≠ "" →
      register_shipment_ws order_id (.error e) sd tr =
        (.ok (success_response WsPayload.noData 0
          (some "El pedido ya fue enviado") none none), [])) := by
  refine ⟨rfl, rfl, fun data notShipped n => rfl, ?_, ?_⟩
  · intro data rows n hrows
    have hne : rows.isEmpty = false := by
      cases rows with
      | nil => exact absurd rfl hrows
      | cons a l => rfl
    simp [create_order_ready_to_ship, check_order_exists,
      check_order_not_shipped, hne]
  · intro order_id sd tr h0
    simp [register_shipment_ws, check_order_not_shipped, h0]

/-- C9 witness: concrete database failure `"conn reset"`. -/
theorem C9_witness :
    check_order_exists (.error "conn reset") = false ∧
    create_order_ready_to_ship ⟨"X1", "usingWS", 1⟩ (.ok [row1])
        (.error "conn reset") 1 =
      (created_response 0 "El pedido ya fue enviado", []) ∧
    register_shipment_ws "X1" (.error "conn reset") none (.error "t") =
      (.ok (success_response WsPayload.noData 0
        (some "El pedido ya fue enviado") none none), []) := by
  exact ⟨(C9_db_error_reported_as_precondition_failure "conn reset").1,
    (C9_db_error_reported_as_precondition_failure "conn reset").2.2.2.1
      ⟨"X1", "usingWS", 1⟩ [row1] 1 (by decide),
    (C9_db_error_reported_as_precondition_failure "conn reset").2.2.2.2
      "X1" none (.error "t") (by decide)⟩

/-- C1 counterexample: for an order id absent from the orders table, the
web-service registration path returns content 0 without invoking the
carrier, but its message is "El pedido ya fue enviado" — the message
"El pedido no existe" asserted by the claim is not produced (the path
performs no existence check). -/
theorem C1_counterexample :
    uSp_isExistOrder [] "A-1" = [] ∧
    register_shipment_ws "A-1" (.ok (uSp_isOrderNotShipped [] "A-1")) none
        (.error "unused") =
      (.ok (success_response WsPayload.noData 0
        (some "El pedido ya fue enviado") none none), []) ∧
    (success_response WsPayload.noData 0
        (some "El pedido ya fue enviado") none none).message ≠
      some "El pedido no existe" ∧
    Effect.carrierCall ∉
      (register_shipment_ws "A-1" (.ok (uSp_isOrderNotShipped [] "A-1")) none
        (.error "unused")).2 := by
  decide

/-- C1 (amended): for every single-service registration whose order id does
not exist in the database (modelling the stored procedure
`uSp_isOrderNotShipped` as the pending rows of the orders table), the
operation returns content 0 with message "El pedido ya fue enviado" and the
carrier client is never invoked — no carrier request is built or sent and
no mutation is issued. -/
theorem C1_amended_no_existence_check (db : List OrderRow) (order_id : String)
    (sd : Option Envio) (tr : Except String (Except String Xml))
    (h0 : order_id ≠ "")
    (h1 : ∀ r ∈ db, r.orderId ≠ order_id) :
    register_shipment_ws order_id (.ok (uSp_isOrderNotShipped db order_id))
        sd tr =
      (.ok (success_response WsPayload.noData 0
        (some "El pedido ya fue enviado") none none), []) := by
  have hnil : uSp_isOrderNotShipped db order_id = [] := by
    rw [uSp_isOrderNotShipped]
    rw [List.filter_eq_nil_iff]
    intro r hr
    simp [h1 r hr]
  rw [hnil]
  simp [register_shipment_ws, check_order_not_shipped, h0]

/-- C1 witness: the amended statement at a concrete empty database. -/
theorem C1_witness :
    register_shipment_ws "A-1" (.ok (uSp_isOrderNotShipped [] "A-1")) none
        (.error "unused") =
      (.ok (success_response WsPayload.noData 0
        (some "El pedido ya fue enviado") none none), []) := by
  exact C1_amended_no_existence_check [] "A-1" none (.error "unused")
    (by decide) (by intro r hr; cases hr)

/-- C2: for every single-service registration that reaches the carrier
call (non-empty order id, not-shipped check passed, shipment row present),
the three database updates — write carrier id/tracking/barcode onto the
order-detail record, mark the shipment record completed via web service,
write the tracking code onto the order record — are performed in that
order, each followed by its own commit, if and only if the parsed
outcome's result code is exactly the string `"0"`; for any other code
(including transport-failure code `"-1"`) no database mutation occurs and
the outcome is returned as-is. -/
theorem C2_three_updates_iff_code_zero (order_id : String)
    (rows : List OrderRow) (envio : Envio)
    (tr : Except String (Except String Xml))
    (h0 : order_id ≠ "") (h1 : rows ≠ []) :
    (((request_shipment_ws tr envio).codResponseWS = "0") →
      register_shipment_ws order_id (.ok rows) (some envio) tr =
        (.ok (success_response
            (WsPayload.outcome (request_shipment_ws tr envio)) 1 none none none),
         [ Effect.carrierCall
         , Effect.updateOrdersDetailWS (request_shipment_ws tr envio).idOrder
             ((request_shipment_ws tr envio).uidExp.getD "")
             ((request_shipment_ws tr envio).exp.getD "")
             ((request_shipment_ws tr envio).codBar.getD "")
         , Effect.commit
         , Effect.updateShipmentWS order_id
         , Effect.commit
         , Effect.updateOrdersWS order_id
             ((request_shipment_ws tr envio).exp.getD "")
         , Effect.commit ])) ∧
    (((request_shipment_ws tr envio).codResponseWS ≠ "0") →
      register_shipment_ws order_id (.ok rows) (some envio) tr =
        (.ok (success_response
            (WsPayload.outcome (request_shipment_ws tr envio)) 1 none none none),
         [Effect.carrierCall]) ∧
      (register_shipment_ws order_id (.ok rows) (some envio) tr).2.filter
        Effect.isMutation = []) := by
  have hck : check_order_not_shipped (.ok rows) = true := by
    cases rows with
    | nil => exact absurd rfl h1
    | cons a l => rfl
  constructor
  · intro hc
    simp [register_shipment_ws, h0, hck, hc]
  · intro hc
    constructor
    · simp [register_shipment_ws, h0, hck, hc]
    · simp [register_shipment_ws, h0, hck, hc, Effect.isMutation]

/-- C2 witness: a concrete success reply triggers exactly the three
committed updates with the carrier-assigned values; a concrete `"-3"`
reply triggers none. -/
theorem C2_witness :
    register_shipment_ws "X1" (.ok [row1]) (some envio0) (.ok (.ok docOk)) =
      (.ok (success_response
          (WsPayload.outcome (request_shipment_ws (.ok (.ok docOk)) envio0))
          1 none none none),
       [ Effect.carrierCall
       , Effect.updateOrdersDetailWS "X1" "U-1" "EXP1" "BC1"
       , Effect.commit
       , Effect.updateShipmentWS "X1"
       , Effect.commit
       , Effect.updateOrdersWS "X1" "EXP1"
       , Effect.commit ]) ∧
    register_shipment_ws "X1" (.ok [row1]) (some envio0) (.ok (.ok doc3)) =
      (.ok (success_response
          (WsPayload.outcome (request_shipment_ws (.ok (.ok doc3)) envio0))
          1 none none none),
       [Effect.carrierCall]) := by
  constructor
  · have h := (C2_three_updates_iff_code_zero "X1" [row1] envio0
      (.ok (.ok docOk)) (by decide) (by decide)).1 rfl
    exact h.trans (by rfl)
  · exact ((C2_three_updates_iff_code_zero "X1" [row1] envio0
      (.ok (.ok doc3)) (by decide) (by decide)).2 (by decide)).1

/-- C7: for every bulk-file registration with at least one eligible order,
a single batch file identifier `"Envios_" ++ timestamp(ddMMyyyy_HHmmss) ++
".xlsx"` is attached to every record of the returned payload, and exactly
two database mutation calls are issued regardless of the number of rows
(mark shipment records with the file, then propagate the file-shipped
status onto order details). -/
theorem C7_one_file_identifier_two_mutations (rows : List ShipRow)
    (now : DateTime) (h : rows ≠ []) :
    (register_shipment_file rows now).1.payload =
      rows.map (fun r =>
        { r with
          fileGenerateName := some ("Envios_" ++ fmtTimestamp now ++ ".xlsx") }) ∧
    (∀ rec ∈ (register_shipment_file rows now).1.payload,
      rec.fileGenerateName = some ("Envios_" ++ fmtTimestamp now ++ ".xlsx")) ∧
    (register_shipment_file rows now).1.payload.length = rows.length ∧
    (register_shipment_file rows now).2.filter Effect.isMutation =
      [ Effect.updateShipmentFile ("Envios_" ++ fmtTimestamp now ++ ".xlsx")
      , Effect.updateOrdersDetailFile ] ∧
    ((register_shipment_file rows now).2.filter Effect.isMutation).length = 2 := by
  have hne : rows.isEmpty = false := by
    cases rows with
    | nil => exact absurd rfl h
    | cons a l => rfl
  refine ⟨?_, ?_, ?_, ?_, ?_⟩
  · simp [register_shipment_file, hne, success_response]
  · intro rec hrec
    simp [register_shipment_file, hne, success_response] at hrec
    obtain ⟨r, _, rfl⟩ := hrec
    rfl
  · simp [register_shipment_file, hne, success_response]
  · simp [register_shipment_file, hne, Effect.isMutation]
  · simp [register_shipment_file, hne, Effect.isMutation]

/-- C7 witness: two concrete rows share the one generated identifier and
exactly two mutations are issued. -/
theorem C7_witness :
    (register_shipment_file [shipRow0, shipRow1] dt0).1.payload =
      [ { shipRow0 with fileGenerateName := some "Envios_07032025_143005.xlsx" }
      , { shipRow1 with fileGenerateName := some "Envios_07032025_143005.xlsx" } ] ∧
    (register_shipment_file [shipRow0, shipRow1] dt0).2.filter
        Effect.isMutation =
      [ Effect.updateShipmentFile "Envios_07032025_143005.xlsx"
      , Effect.updateOrdersDetailFile ] := by
  have h := C7_one_file_identifier_two_mutations [shipRow0, shipRow1] dt0
    (by decide)
  exact ⟨h.1.trans (by decide), h.2.2.2.1.trans (by decide)⟩

/-- C8 counterexample: the builder is a string template, so a field value
containing carrier markup is spliced verbatim — with reference markup
injected into the free-text notes field the produced document contains two
type-C reference elements, not exactly one. -/
theorem C8_counterexample :
    countTok (generate_soap_xml cfg0 envioInj dt0).data refTok = 2 ∧
    countTok (generate_soap_xml cfg0 envioInj dt0).data refTok ≠ 1 := by
  have h : countTok (generate_soap_xml cfg0 envioInj dt0).data refTok = 2 := by
    decide
  exact ⟨h, by rw [h]; decide⟩

/-- C8 (amended): for every complete shipment input whose interpolated
field values are markup-free (no `'<'` character), the request builder
produces a document containing exactly one occurrence of the type-C
reference markup, that reference carrying the caller-supplied reference
code, a request for an inline PDF-format label, and the current local
date (day/month/year) embedded as the shipment date; the build is a pure
transform of its inputs. -/
theorem C8_amended_one_reference (cfg : GlsConfig) (envio : Envio)
    (now : DateTime) (hc : cfg.ltFree) (he : envio.ltFree) :
    countTok (generate_soap_xml cfg envio now).data refTok = 1 ∧
    (∃ p q, (generate_soap_xml cfg envio now).data =
      p ++ (refTok ++ envio.refC.data ++ "</Referencia>".data) ++ q) ∧
    (∃ p q, (generate_soap_xml cfg envio now).data =
      p ++ "<Etiqueta tipo=\"PDF\"/>".data ++ q) ∧
    (∃ p q, (generate_soap_xml cfg envio now).data =
      p ++ ("<Fecha>".data ++ (fmtFecha now).data ++ "</Fecha>".data) ++ q) := by
  obtain ⟨hc1, hc2, hc3, hc4, hc5, hc6, hc7, hc8⟩ := hc
  obtain ⟨he1, he2, he3, he4, he5, he6, he7, he8, he9, he10, he11, he12,
    he13, he14, he15⟩ := he
  refine ⟨?_, ?_, ?_, ?_⟩
  · have hcc : ∀ s, Seg.c s ∈ soapSegs cfg envio (fmtFecha now) →
        noSpanSplit s.data refTok := by
      intro s hs
      simp [soapSegs] at hs
      rcases hs with rfl|rfl|rfl|rfl|rfl|rfl|rfl|rfl|rfl|rfl|rfl|rfl|rfl|rfl|
        rfl|rfl|rfl|rfl|rfl|rfl|rfl|rfl|rfl|rfl|rfl|rfl|rfl|rfl|rfl|rfl|rfl <;>
        decide
    have hvv : ∀ s, Seg.v s ∈ soapSegs cfg envio (fmtFecha now) →
        '<' ∉ s.data := by
      intro s hs
      simp [soapSegs] at hs
      rcases hs with rfl|rfl|rfl|rfl|rfl|rfl|rfl|rfl|rfl|rfl|rfl|rfl|
        rfl|rfl|rfl|rfl|rfl|rfl|rfl|rfl|rfl|rfl|rfl|rfl <;>
        first
          | assumption
          | exact fmtFecha_ltFree now
    show countTok (renderSegs (soapSegs cfg envio (fmtFecha now))) refTok = 1
    rw [countTok_renderSegs (soapSegs cfg envio (fmtFecha now)) refTok
      (by decide) hcc hvv]
    simp only [soapSegs, List.map_cons, List.map_nil, segCount,
      List.sum_cons, List.sum_nil]
    decide
  · refine ⟨renderSegs ((soapSegs cfg envio (fmtFecha now)).take 49),
      renderSegs ((soapSegs cfg envio (fmtFecha now)).drop 52), ?_⟩
    have hsplit : soapSegs cfg envio (fmtFecha now) =
        (soapSegs cfg envio (fmtFecha now)).take 49 ++
          ([ Seg.c "<Referencia tipo=\"C\">", Seg.v envio.refC,
             Seg.c "</Referencia>" ] ++
            (soapSegs cfg envio (fmtFecha now)).drop 52) := rfl
    have h1 := congrArg renderSegs hsplit
    rw [renderSegs_append, renderSegs_append] at h1
    show renderSegs (soapSegs cfg envio (fmtFecha now)) = _
    rw [h1]
    simp [renderSegs, refTok, List.append_assoc]
  · refine ⟨renderSegs ((soapSegs cfg envio (fmtFecha now)).take 53),
      renderSegs ((soapSegs cfg envio (fmtFecha now)).drop 54), ?_⟩
    have hsplit : soapSegs cfg envio (fmtFecha now) =
        (soapSegs cfg envio (fmtFecha now)).take 53 ++
          ([Seg.c "<Etiqueta tipo=\"PDF\"/>"] ++
            (soapSegs cfg envio (fmtFecha now)).drop 54) := rfl
    have h1 := congrArg renderSegs hsplit
    rw [renderSegs_append, renderSegs_append] at h1
    show renderSegs (soapSegs cfg envio (fmtFecha now)) = _
    rw [h1]
    simp [renderSegs, List.append_assoc]
  · refine ⟨renderSegs ((soapSegs cfg envio (fmtFecha now)).take 3),
      renderSegs ((soapSegs cfg envio (fmtFecha now)).drop 6), ?_⟩
    have hsplit : soapSegs cfg envio (fmtFecha now) =
        (soapSegs cfg envio (fmtFecha now)).take 3 ++
          ([ Seg.c "<Fecha>", Seg.v (fmtFecha now), Seg.c "</Fecha>" ] ++
            (soapSegs cfg envio (fmtFecha now)).drop 6) := rfl
    have h1 := congrArg renderSegs hsplit
    rw [renderSegs_append, renderSegs_append] at h1
    show renderSegs (soapSegs cfg envio (fmtFecha now)) = _
    rw [h1]
    simp [renderSegs, List.append_assoc]

/-- C8 witness: the amended statement at a concrete configuration,
shipment and date. -/
theorem C8_witness :
    countTok (generate_soap_xml cfg0 envio0 dt0).data refTok = 1 ∧
    (∃ p q, (generate_soap_xml cfg0 envio0 dt0).data =
      p ++ (refTok ++ "X1".data ++ "</Referencia>".data) ++ q) ∧
    (∃ p q, (generate_soap_xml cfg0 envio0 dt0).data =
      p ++ ("<Fecha>".data ++ "07/03/2025".data ++ "</Fecha>".data) ++ q) := by
  have h := C8_amended_one_reference cfg0 envio0 dt0 (by decide) (by decide)
  exact ⟨h.1, h.2.1, h.2.2.2⟩
